import Mathlib

/-!
Formal model of `src/app.py` of the vedic-chart-api repository.

The FastAPI handlers `geocode_place` and `compute_natal` are embedded as
pure Lean functions.  External library calls (Swiss Ephemeris routines,
the tz database, `datetime.fromisoformat`, the Nominatim geocoder) are
modelled as fields of an explicit environment record, so every handler is
a function of the request and that environment.  Python floats are
modelled as exact rationals; Python's `%` on a positive modulus is the
mathematical `x - m * ⌊x / m⌋`; fallible code returns `Except`/`Option`.
-/

namespace VedicChart

/-- The twelve sidereal sign names, in zodiacal order (`SIGNS` in app.py). -/
def SIGNS : List String :=
  ["Aries","Taurus","Gemini","Cancer","Leo","Virgo",
   "Libra","Scorpio","Sagittarius","Capricorn","Aquarius","Pisces"]

/-- ASCII lowercasing of one character, as Python's `str.lower` does it
on the ASCII range (the only range app.py compares against). -/
def pyLowerChar (c : Char) : Char :=
  if 'A' ≤ c ∧ c ≤ 'Z' then Char.ofNat (c.toNat + 32) else c

/-- Python's `str.lower` on ASCII strings. -/
def pyLower (s : String) : String := ⟨s.data.map pyLowerChar⟩

/-- Lexicographic comparison of code-point sequences, as Python's `<`
on `str` behaves. -/
def lexLtb : List Char → List Char → Bool
  | _, [] => false
  | [], _ :: _ => true
  | a :: as, b :: bs => if a < b then true else if b < a then false else lexLtb as bs

/-- Python's `<` on `str`. -/
def pyStrLtb (a b : String) : Bool := lexLtb a.data b.data

/-- Python's `x % m` for a positive modulus `m`, in exact arithmetic:
the representative of `x` modulo `m` lying in `[0, m)`. -/
def pymod (x m : ℚ) : ℚ := x - m * ⌊x / m⌋

/-- Python list indexing `xs[i]` for `int` indices: a negative index is
taken from the end of the list; out-of-range indexing raises `IndexError`,
modelled as `none`. -/
def pyGet (xs : List String) (i : ℤ) : Option String :=
  if 0 ≤ i then xs[i.toNat]?
  else if 0 ≤ i + xs.length then xs[(i + xs.length).toNat]?
  else none

/-- `lon_to_sign_deg` from app.py: reduce the longitude modulo 360, take
`sign_index = int(lon // 30)` and `deg = lon - sign_index * 30`, and read
the sign name out of `SIGNS`; the indexing can in principle raise
`IndexError`, hence the `Option`. -/
def lon_to_sign_deg (lon : ℚ) : Option (String × ℚ) :=
  let l := pymod lon 360
  let sign_index : ℤ := ⌊l / 30⌋
  let deg : ℚ := l - sign_index * 30
  match pyGet SIGNS sign_index with
  | some s => some (s, deg)
  | none => none

/-- Closed form for the sign index computed by `lon_to_sign_deg`. -/
def signIdx (lon : ℚ) : ℤ := ⌊pymod lon 360 / 30⌋

/-- Closed form for the sign name computed by `lon_to_sign_deg`. -/
def signName (lon : ℚ) : String := SIGNS.getD (signIdx lon).toNat ""

/-- Closed form for the degree-within-sign computed by `lon_to_sign_deg`. -/
def degInSign (lon : ℚ) : ℚ := pymod lon 360 - signIdx lon * 30

section PymodLemmas

/-- `Int.floor` on `ℚ` agrees with the computable `Rat.floor`; used to
evaluate the model on concrete inputs. -/
theorem qfloor_eq (q : ℚ) : ⌊q⌋ = Rat.floor q :=
  Rat.floor_def.trans (Rat.floor_def' q).symm

theorem pymod_nonneg (x : ℚ) {m : ℚ} (hm : 0 < m) : 0 ≤ pymod x m := by
  have h := Int.floor_le (x / m)
  have : m * ⌊x / m⌋ ≤ m * (x / m) := by
    exact mul_le_mul_of_nonneg_left h (le_of_lt hm)
  have hxm : m * (x / m) = x := by
    field_simp
  unfold pymod
  nlinarith

theorem pymod_lt (x : ℚ) {m : ℚ} (hm : 0 < m) : pymod x m < m := by
  have h := Int.lt_floor_add_one (x / m)
  have : m * (x / m) < m * (⌊x / m⌋ + 1) := by
    exact mul_lt_mul_of_pos_left h hm
  have hxm : m * (x / m) = x := by
    field_simp
  unfold pymod
  nlinarith

theorem pymod_eq_self {x m : ℚ} (h0 : 0 ≤ x) (h1 : x < m) : pymod x m = x := by
  have hm : 0 < m := lt_of_le_of_lt h0 h1
  have hfloor : ⌊x / m⌋ = 0 := by
    rw [Int.floor_eq_zero_iff]
    constructor
    · exact div_nonneg h0 (le_of_lt hm)
    · rw [div_lt_one hm]; exact h1
  unfold pymod
  rw [hfloor]
  ring

theorem pymod_idem (x : ℚ) {m : ℚ} (hm : 0 < m) : pymod (pymod x m) m = pymod x m :=
  pymod_eq_self (pymod_nonneg x hm) (pymod_lt x hm)

end PymodLemmas

section SignLemmas

theorem signIdx_nonneg (lon : ℚ) : 0 ≤ signIdx lon := by
  unfold signIdx
  have h0 : (0:ℚ) ≤ pymod lon 360 := pymod_nonneg lon (by norm_num)
  exact Int.floor_nonneg.mpr (div_nonneg h0 (by norm_num))

theorem signIdx_lt_twelve (lon : ℚ) : signIdx lon < 12 := by
  unfold signIdx
  have h1 : pymod lon 360 < 360 := pymod_lt lon (by norm_num)
  have h2 : pymod lon 360 / 30 < 12 := by
    rw [div_lt_iff₀ (by norm_num : (0:ℚ) < 30)]
    linarith
  exact Int.floor_lt.mpr (by push_cast; linarith)

/-- For an in-range index, `pyGet SIGNS` returns the `getD` value. -/
theorem pyGet_SIGNS_eq {i : ℤ} (h0 : 0 ≤ i) (h1 : i < 12) :
    pyGet SIGNS i = some (SIGNS.getD i.toNat "") := by
  unfold pyGet
  rw [if_pos h0]
  have hlen : SIGNS.length = 12 := by rfl
  have hlt : i.toNat < SIGNS.length := by
    rw [hlen]; omega
  rw [List.getElem?_eq_getElem hlt, List.getD_eq_getElem SIGNS "" hlt]

/-- `lon_to_sign_deg` never raises: it always returns the closed-form
sign name and degree. -/
theorem lon_to_sign_deg_eq (lon : ℚ) :
    lon_to_sign_deg lon = some (signName lon, degInSign lon) := by
  unfold lon_to_sign_deg
  simp only []
  rw [show ⌊pymod lon 360 / 30⌋ = signIdx lon from rfl]
  rw [pyGet_SIGNS_eq (signIdx_nonneg lon) (signIdx_lt_twelve lon)]
  rfl

theorem degInSign_nonneg (lon : ℚ) : 0 ≤ degInSign lon := by
  unfold degInSign signIdx
  have h := Int.floor_le (pymod lon 360 / 30)
  have h30 : (0:ℚ) < 30 := by norm_num
  nlinarith [mul_le_mul_of_nonneg_left h (le_of_lt h30)]

theorem degInSign_lt_thirty (lon : ℚ) : degInSign lon < 30 := by
  unfold degInSign signIdx
  have h := Int.lt_floor_add_one (pymod lon 360 / 30)
  have h30 : (0:ℚ) < 30 := by norm_num
  nlinarith [mul_lt_mul_of_pos_left h h30]

end SignLemmas

/-! ## Data model (Pydantic models and the `swisseph` constants) -/

/-- Swiss Ephemeris body constant `swe.SUN`. -/
def SUN : ℤ := 0
/-- Swiss Ephemeris body constant `swe.MOON`. -/
def MOON : ℤ := 1
/-- Swiss Ephemeris body constant `swe.MERCURY`. -/
def MERCURY : ℤ := 2
/-- Swiss Ephemeris body constant `swe.VENUS`. -/
def VENUS : ℤ := 3
/-- Swiss Ephemeris body constant `swe.MARS`. -/
def MARS : ℤ := 4
/-- Swiss Ephemeris body constant `swe.JUPITER`. -/
def JUPITER : ℤ := 5
/-- Swiss Ephemeris body constant `swe.SATURN`. -/
def SATURN : ℤ := 6
/-- Swiss Ephemeris body constant `swe.TRUE_NODE`. -/
def TRUE_NODE : ℤ := 11
/-- Swiss Ephemeris flag `swe.FLG_SWIEPH`. -/
def FLG_SWIEPH : ℤ := 2
/-- Swiss Ephemeris flag `swe.FLG_SIDEREAL`. -/
def FLG_SIDEREAL : ℤ := 65536
/-- The flag word `swe.FLG_SWIEPH | swe.FLG_SIDEREAL` used for planets. -/
def natal_flags : ℤ := Int.lor FLG_SWIEPH FLG_SIDEREAL

/-- The `PLANETS` dict of app.py, in insertion order; `Ketu` carries no
ephemeris id (`None`) because it is derived from Rahu. -/
def PLANETS : List (String × Option ℤ) :=
  [("Sun", some SUN), ("Moon", some MOON), ("Mars", some MARS),
   ("Mercury", some MERCURY), ("Jupiter", some JUPITER), ("Venus", some VENUS),
   ("Saturn", some SATURN), ("Rahu", some TRUE_NODE), ("Ketu", none)]

/-- The `PlanetOut` Pydantic model. -/
structure PlanetOut where
  name : String
  lon : ℚ
  sign : String
  degree : ℚ
deriving DecidableEq, Repr

/-- The `NatalReq` Pydantic model. -/
structure NatalReq where
  date : String
  time : String
  tzid : String
  lat : ℚ
  lon : ℚ
  ayanamsha : String := "lahiri"
deriving DecidableEq, Repr

/-- The `NatalResp` Pydantic model. -/
structure NatalResp where
  birth_utc : String
  ascendant : PlanetOut
  planets : List PlanetOut
deriving DecidableEq, Repr

/-- The `GeocodeReq` Pydantic model. -/
structure GeocodeReq where
  place : String
deriving DecidableEq, Repr

/-- The `GeocodeResp` Pydantic model. -/
structure GeocodeResp where
  lat : ℚ
  lon : ℚ
  tzid : String
  normalized_place : String
deriving DecidableEq, Repr

/-- A naive/aware `datetime.datetime` value: the components that app.py
reads (`year` … `second`). -/
structure PyDatetime where
  year : ℤ
  month : ℤ
  day : ℤ
  hour : ℤ
  minute : ℤ
  second : ℤ
deriving DecidableEq, Repr

deriving instance DecidableEq for Except

/-- The Python exceptions that can cross function boundaries in app.py. -/
inductive PyExc where
  | http (code : ℕ) (msg : String)
  | valueError (msg : String)
  | indexError
  | typeError
  | stopIteration
deriving DecidableEq, Repr

/-- A geopy `Location`: the fields app.py reads (`latitude`, `longitude`,
and `str(loc)`). -/
structure GeoLocation where
  latitude : ℚ
  longitude : ℚ
  display : String
deriving DecidableEq, Repr

/-- The external world as seen by `compute_natal`: the datetime parser,
the tz database, the local→UTC conversion (parameterised on the tzinfo
type `TZ`), and the Swiss Ephemeris routines (pure oracles: the library
is stateless once `set_sid_mode`/`set_ephe_path` are fixed at import). -/
structure Env (TZ : Type) where
  fromisoformat : String → Option PyDatetime
  gettz : String → Option TZ
  astimezone_utc : PyDatetime → TZ → PyDatetime
  julday : ℤ → ℤ → ℤ → ℚ → ℚ
  houses_asc : ℚ → ℚ → ℚ → String → ℚ
  get_ayanamsa_ut : ℚ → ℚ
  calc_ut_lon : ℚ → ℤ → ℤ → ℚ

/-! ## The handlers -/

/-- Zero-pad a nonnegative number to two digits (`datetime.isoformat`). -/
def pad2 (n : ℤ) : String :=
  if 0 ≤ n ∧ n < 10 then "0" ++ toString n else toString n

/-- Zero-pad a year to four digits (`datetime.isoformat`). -/
def pad4 (n : ℤ) : String :=
  if 0 ≤ n ∧ n < 10 then "000" ++ toString n
  else if 0 ≤ n ∧ n < 100 then "00" ++ toString n
  else if 0 ≤ n ∧ n < 1000 then "0" ++ toString n
  else toString n

/-- `dt.isoformat()` for a UTC-aware datetime with zero microseconds:
`YYYY-MM-DDTHH:MM:SS+00:00`. -/
def isoformatUTC (dt : PyDatetime) : String :=
  pad4 dt.year ++ "-" ++ pad2 dt.month ++ "-" ++ pad2 dt.day ++ "T" ++
  pad2 dt.hour ++ ":" ++ pad2 dt.minute ++ ":" ++ pad2 dt.second ++ "+00:00"

/-- `to_utc` from app.py: parse `"{d}T{t}"` (a failed parse raises
`ValueError`), look the tzid up in the tz database (`None` raises
`ValueError("Invalid tzid")`), then convert the localised datetime
to UTC. -/
def to_utc (env : Env TZ) (d t tzid : String) : Except PyExc PyDatetime :=
  match env.fromisoformat (d ++ "T" ++ t) with
  | none => .error (.valueError "Invalid isoformat string")
  | some dt_local =>
    match env.gettz tzid with
    | none => .error (.valueError "Invalid tzid")
    | some local_tz => .ok (env.astimezone_utc dt_local local_tz)

/-- The `for name, pid in PLANETS.items()` loop of `compute_natal`:
skip Ketu, query `swe.calc_ut`, reduce the longitude modulo 360 and map
it to sign/degree.  A `None` id for a non-Ketu entry would raise a
`TypeError` inside `swe.calc_ut`; an out-of-range sign index would raise
`IndexError`. -/
def compute_planets (env : Env TZ) (jd_ut : ℚ) :
    List (String × Option ℤ) → Except PyExc (List PlanetOut)
  | [] => .ok []
  | (name, pid) :: rest =>
    if name = "Ketu" then compute_planets env jd_ut rest
    else
      match pid with
      | none => .error .typeError
      | some p =>
        let lon := pymod (env.calc_ut_lon jd_ut p natal_flags) 360
        match lon_to_sign_deg lon with
        | none => .error .indexError
        | some (sign, deg) =>
          match compute_planets env jd_ut rest with
          | .error e => .error e
          | .ok ps => .ok (PlanetOut.mk name lon sign deg :: ps)

/-- Stable insertion keyed on `name` (an element is placed before every
strictly later-keyed element, after equal keys), matching Python's
stable `sorted(..., key=lambda x: x.name)`. -/
def insertByName (p : PlanetOut) : List PlanetOut → List PlanetOut
  | [] => [p]
  | q :: rest => if pyStrLtb q.name p.name then q :: insertByName p rest else p :: q :: rest

/-- `sorted(planets_out, key=lambda x: x.name)`. -/
def sortByName : List PlanetOut → List PlanetOut
  | [] => []
  | p :: rest => insertByName p (sortByName rest)

/-- The body of the `try:` block of `compute_natal` (app.py lines
96–141): ayanamsha gate, UTC conversion, Julian day, tropical ascendant
minus ayanamsha, the planet loop, the derived Ketu point, and the
name-sorted response. -/
def compute_natal_inner (env : Env TZ) (req : NatalReq) : Except PyExc NatalResp :=
  if pyLower req.ayanamsha ≠ "lahiri" then .error (.http 400 "Only lahiri supported")
  else
    match to_utc env req.date req.time req.tzid with
    | .error e => .error e
    | .ok dt_utc =>
      let jd_ut := env.julday dt_utc.year dt_utc.month dt_utc.day
        ((dt_utc.hour : ℚ) + (dt_utc.minute : ℚ) / 60 + (dt_utc.second : ℚ) / 3600)
      let asc_trop := pymod (env.houses_asc jd_ut req.lat req.lon "P") 360
      let ay := env.get_ayanamsa_ut jd_ut
      let asc_lon := pymod (asc_trop - ay) 360
      match lon_to_sign_deg asc_lon with
      | none => .error .indexError
      | some (asc_sign, asc_deg) =>
        match compute_planets env jd_ut PLANETS with
        | .error e => .error e
        | .ok planets_out =>
          match planets_out.find? (fun p => p.name == "Rahu") with
          | none => .error .stopIteration
          | some rahu =>
            let ketu_lon := pymod (rahu.lon + 180) 360
            match lon_to_sign_deg ketu_lon with
            | none => .error .indexError
            | some (ksign, kdeg) =>
              .ok { birth_utc := isoformatUTC dt_utc
                  , ascendant := PlanetOut.mk "Ascendant" asc_lon asc_sign asc_deg
                  , planets := sortByName
                      (planets_out ++ [PlanetOut.mk "Ketu" ketu_lon ksign kdeg]) }

/-- The `/chart/natal` handler: the `try/except` wrapper re-raises
`HTTPException` unchanged and converts every other exception into the
generic `HTTPException(500, "Internal error computing chart")`. -/
def compute_natal (env : Env TZ) (req : NatalReq) : Except (ℕ × String) NatalResp :=
  match compute_natal_inner env req with
  | .ok r => .ok r
  | .error (.http c m) => .error (c, m)
  | .error _ => .error (500, "Internal error computing chart")

/-- The `/geocode` handler: a provider miss raises `HTTPException(404)`;
a hit is returned with the fixed sentinel tzid `"UNKNOWN"`. -/
def geocode_place (geo : String → Option GeoLocation) (req : GeocodeReq) :
    Except (ℕ × String) GeocodeResp :=
  match geo req.place with
  | none => .error (404, "Place not found")
  | some loc =>
    .ok { lat := loc.latitude, lon := loc.longitude
        , tzid := "UNKNOWN", normalized_place := loc.display }

/-! ## Closed form of the success path -/

/-- The `PlanetOut` that the planet loop builds for an ephemeris body. -/
def planetEntry (env : Env TZ) (jd : ℚ) (name : String) (pid : ℤ) : PlanetOut :=
  let l := pymod (env.calc_ut_lon jd pid natal_flags) 360
  PlanetOut.mk name l (signName l) (degInSign l)

/-- The Julian day `compute_natal` derives from the UTC datetime. -/
def jd_of (env : Env TZ) (dt : PyDatetime) : ℚ :=
  env.julday dt.year dt.month dt.day
    ((dt.hour : ℚ) + (dt.minute : ℚ) / 60 + (dt.second : ℚ) / 3600)

/-- The sidereal ascendant longitude `compute_natal` derives. -/
def asc_lon_of (env : Env TZ) (req : NatalReq) (dt : PyDatetime) : ℚ :=
  pymod (pymod (env.houses_asc (jd_of env dt) req.lat req.lon "P") 360 -
    env.get_ayanamsa_ut (jd_of env dt)) 360

/-- The derived Ketu entry: the antipode of Rahu's longitude. -/
def ketuEntry (env : Env TZ) (jd : ℚ) : PlanetOut :=
  let kl := pymod ((planetEntry env jd "Rahu" TRUE_NODE).lon + 180) 360
  PlanetOut.mk "Ketu" kl (signName kl) (degInSign kl)

/-- The eight looped entries, in `PLANETS` insertion order. -/
def planetList (env : Env TZ) (jd : ℚ) : List PlanetOut :=
  [planetEntry env jd "Sun" SUN, planetEntry env jd "Moon" MOON,
   planetEntry env jd "Mars" MARS, planetEntry env jd "Mercury" MERCURY,
   planetEntry env jd "Jupiter" JUPITER, planetEntry env jd "Venus" VENUS,
   planetEntry env jd "Saturn" SATURN, planetEntry env jd "Rahu" TRUE_NODE]

/-- The full successful response as a function of the UTC datetime. -/
def natal_of (env : Env TZ) (req : NatalReq) (dt : PyDatetime) : NatalResp :=
  { birth_utc := isoformatUTC dt
  , ascendant := PlanetOut.mk "Ascendant" (asc_lon_of env req dt)
      (signName (asc_lon_of env req dt)) (degInSign (asc_lon_of env req dt))
  , planets := sortByName (planetList env (jd_of env dt) ++ [ketuEntry env (jd_of env dt)]) }

theorem compute_planets_PLANETS (env : Env TZ) (jd : ℚ) :
    compute_planets env jd PLANETS = .ok (planetList env jd) := by
  simp [compute_planets, PLANETS, planetList, planetEntry, lon_to_sign_deg_eq]

theorem find_rahu (env : Env TZ) (jd : ℚ) :
    (planetList env jd).find? (fun p => p.name == "Rahu") =
      some (planetEntry env jd "Rahu" TRUE_NODE) := by
  simp [planetList, planetEntry, List.find?]

/-- Full characterisation of `compute_natal_inner`: the only failure
points are the ayanamsha gate and the UTC conversion; every successful
run returns `natal_of`. -/
theorem compute_natal_inner_eq (env : Env TZ) (req : NatalReq) :
    compute_natal_inner env req =
      if pyLower req.ayanamsha ≠ "lahiri" then .error (.http 400 "Only lahiri supported")
      else
        match to_utc env req.date req.time req.tzid with
        | .error e => .error e
        | .ok dt => .ok (natal_of env req dt) := by
  unfold compute_natal_inner
  split
  · rfl
  · split
    · rfl
    · simp only [compute_planets_PLANETS, lon_to_sign_deg_eq, find_rahu,
        natal_of, ketuEntry, asc_lon_of, jd_of, planetEntry]

/-- Success inversion: a natal request succeeds exactly when the
ayanamsha gate passes and the UTC conversion succeeds, and then the
response is `natal_of`. -/
theorem compute_natal_ok_iff (env : Env TZ) (req : NatalReq) (resp : NatalResp) :
    compute_natal env req = .ok resp ↔
      (pyLower req.ayanamsha = "lahiri" ∧
       ∃ dt, to_utc env req.date req.time req.tzid = .ok dt ∧ resp = natal_of env req dt) := by
  unfold compute_natal
  rw [compute_natal_inner_eq]
  by_cases h : pyLower req.ayanamsha = "lahiri"
  · cases hu : to_utc env req.date req.time req.tzid with
    | error e => cases e <;> simp [h, hu]
    | ok dt => simp [h, hu, eq_comm]
  · simp [h]

/-- The name-sorted planet list of a successful response, fully
evaluated: `sorted` puts the nine entries in lexicographic name order. -/
theorem natal_planets_list (env : Env TZ) (req : NatalReq) (dt : PyDatetime) :
    (natal_of env req dt).planets =
      [planetEntry env (jd_of env dt) "Jupiter" JUPITER,
       ketuEntry env (jd_of env dt),
       planetEntry env (jd_of env dt) "Mars" MARS,
       planetEntry env (jd_of env dt) "Mercury" MERCURY,
       planetEntry env (jd_of env dt) "Moon" MOON,
       planetEntry env (jd_of env dt) "Rahu" TRUE_NODE,
       planetEntry env (jd_of env dt) "Saturn" SATURN,
       planetEntry env (jd_of env dt) "Sun" SUN,
       planetEntry env (jd_of env dt) "Venus" VENUS] := by
  rfl

/-! ## Concrete fixtures for witnesses -/

/-- A concrete environment: every oracle is a simple total function. -/
def testEnv : Env Unit :=
  { fromisoformat := fun _ => some ⟨2000, 1, 1, 12, 0, 0⟩
  , gettz := fun s => if s = "UTC" then some () else none
  , astimezone_utc := fun dt _ => dt
  , julday := fun _ _ _ _ => 2451545
  , houses_asc := fun _ _ _ _ => 100
  , get_ayanamsa_ut := fun _ => 24
  , calc_ut_lon := fun _ pid _ => 10 * pid + 5 }

/-- A well-formed natal request. -/
def testReq : NatalReq := ⟨"2000-01-01", "12:00:00", "UTC", 28, 77, "lahiri"⟩

/-- The same natal request, written out a second time. -/
def testReq2 : NatalReq := ⟨"2000-01-01", "12:00:00", "UTC", 28, 77, "lahiri"⟩

/-- The UTC datetime `testEnv` parses every input to. -/
def testDt : PyDatetime := ⟨2000, 1, 1, 12, 0, 0⟩

theorem compute_natal_testEnv :
    compute_natal testEnv testReq = .ok (natal_of testEnv testReq testDt) := by
  rw [compute_natal_ok_iff]
  exact ⟨by decide, testDt, by decide, rfl⟩

/-! ## Claims -/

/-- C1: In every successful natal-chart response, the longitude of the
planet entry named "Ketu" equals `(longitude of the entry named "Rahu"
+ 180) mod 360`, exactly, and Ketu's sign and degree are obtained from
that longitude by `lon_to_sign_deg`, the same sign/degree mapping used
for every other body. -/
theorem C1_ketu_antipodal_of_rahu (TZ : Type) (env : Env TZ) (req : NatalReq)
    (resp : NatalResp) (h : compute_natal env req = .ok resp) :
    ∃ rahu ketu : PlanetOut,
      resp.planets.find? (fun p => p.name == "Rahu") = some rahu ∧
      resp.planets.find? (fun p => p.name == "Ketu") = some ketu ∧
      ketu.lon = pymod (rahu.lon + 180) 360 ∧
      lon_to_sign_deg ketu.lon = some (ketu.sign, ketu.degree) := by
  obtain ⟨-, dt, -, rfl⟩ := (compute_natal_ok_iff env req resp).mp h
  refine ⟨planetEntry env (jd_of env dt) "Rahu" TRUE_NODE,
    ketuEntry env (jd_of env dt), ?_, ?_, ?_, ?_⟩
  · rw [natal_planets_list]; rfl
  · rw [natal_planets_list]; rfl
  · rfl
  · rw [lon_to_sign_deg_eq]; rfl

theorem C1_witness :
    ∃ rahu ketu : PlanetOut,
      (natal_of testEnv testReq testDt).planets.find? (fun p => p.name == "Rahu") = some rahu ∧
      (natal_of testEnv testReq testDt).planets.find? (fun p => p.name == "Ketu") = some ketu ∧
      ketu.lon = pymod (rahu.lon + 180) 360 ∧
      lon_to_sign_deg ketu.lon = some (ketu.sign, ketu.degree) :=
  C1_ketu_antipodal_of_rahu Unit testEnv testReq (natal_of testEnv testReq testDt)
    compute_natal_testEnv

/-- C2: For every longitude `L` in `[0, 360)`, the sign/degree mapping
returns the sign `SIGNS[⌊L/30⌋]` and the degree `L - 30*⌊L/30⌋`, and the
returned degree lies in `[0, 30)`. -/
theorem C2_sign_deg_mapping (L : ℚ) (h0 : 0 ≤ L) (h1 : L < 360) :
    lon_to_sign_deg L = some (SIGNS.getD (⌊L / 30⌋).toNat "", L - 30 * ⌊L / 30⌋) ∧
    0 ≤ L - 30 * (⌊L / 30⌋ : ℚ) ∧ L - 30 * (⌊L / 30⌋ : ℚ) < 30 := by
  have hm : pymod L 360 = L := pymod_eq_self h0 h1
  have hidx : signIdx L = ⌊L / 30⌋ := by unfold signIdx; rw [hm]
  have hdeg : degInSign L = L - 30 * ⌊L / 30⌋ := by
    unfold degInSign; rw [hm, hidx]; ring
  refine ⟨?_, ?_, ?_⟩
  · rw [lon_to_sign_deg_eq, hdeg]
    unfold signName
    rw [hidx]
  · rw [← hdeg]; exact degInSign_nonneg L
  · rw [← hdeg]; exact degInSign_lt_thirty L

theorem C2_witness :
    lon_to_sign_deg 100 = some ("Cancer", 10) ∧
    (0:ℚ) ≤ 100 - 30 * (⌊(100:ℚ) / 30⌋ : ℚ) ∧ (100:ℚ) - 30 * (⌊(100:ℚ) / 30⌋ : ℚ) < 30 := by
  have h := C2_sign_deg_mapping 100 (by norm_num) (by norm_num)
  refine ⟨?_, h.2.1, h.2.2⟩
  have h3 : ⌊(100:ℚ) / 30⌋ = 3 := by norm_num [Int.floor_eq_iff]
  rw [h.1, h3]
  norm_num [SIGNS]
  rfl

/-- C3: Every successful natal-chart response contains exactly nine
entries in its `planets` sequence, and that sequence is sorted by the
`name` field in ascending lexicographic order: the names appear as
Jupiter, Ketu, Mars, Mercury, Moon, Rahu, Saturn, Sun, Venus, regardless
of computation order. -/
theorem C3_planets_sorted (TZ : Type) (env : Env TZ) (req : NatalReq)
    (resp : NatalResp) (h : compute_natal env req = .ok resp) :
    resp.planets.length = 9 ∧
    resp.planets.map PlanetOut.name =
      ["Jupiter", "Ketu", "Mars", "Mercury", "Moon", "Rahu", "Saturn", "Sun", "Venus"] ∧
    List.Pairwise (fun a b => pyStrLtb a b = true) (resp.planets.map PlanetOut.name) := by
  obtain ⟨-, dt, -, rfl⟩ := (compute_natal_ok_iff env req resp).mp h
  rw [natal_planets_list]
  refine ⟨rfl, rfl, ?_⟩
  have hmap : ([planetEntry env (jd_of env dt) "Jupiter" JUPITER,
      ketuEntry env (jd_of env dt),
      planetEntry env (jd_of env dt) "Mars" MARS,
      planetEntry env (jd_of env dt) "Mercury" MERCURY,
      planetEntry env (jd_of env dt) "Moon" MOON,
      planetEntry env (jd_of env dt) "Rahu" TRUE_NODE,
      planetEntry env (jd_of env dt) "Saturn" SATURN,
      planetEntry env (jd_of env dt) "Sun" SUN,
      planetEntry env (jd_of env dt) "Venus" VENUS]).map PlanetOut.name =
      ["Jupiter", "Ketu", "Mars", "Mercury", "Moon", "Rahu", "Saturn", "Sun", "Venus"] := rfl
  rw [hmap]
  decide

theorem C3_witness :
    (natal_of testEnv testReq testDt).planets.length = 9 ∧
    (natal_of testEnv testReq testDt).planets.map PlanetOut.name =
      ["Jupiter", "Ketu", "Mars", "Mercury", "Moon", "Rahu", "Saturn", "Sun", "Venus"] ∧
    List.Pairwise (fun a b => pyStrLtb a b = true)
      ((natal_of testEnv testReq testDt).planets.map PlanetOut.name) :=
  C3_planets_sorted Unit testEnv testReq (natal_of testEnv testReq testDt)
    compute_natal_testEnv

/-- C4: In every successful natal-chart response, the ascendant's
longitude equals `(tropical house ascendant mod 360 - Lahiri ayanamsha
at the same Julian day) mod 360`, and it always lies in `[0, 360)`. -/
theorem C4_ascendant_longitude (TZ : Type) (env : Env TZ) (req : NatalReq)
    (resp : NatalResp) (h : compute_natal env req = .ok resp) :
    ∃ dt, to_utc env req.date req.time req.tzid = .ok dt ∧
      resp.ascendant.lon =
        pymod (pymod (env.houses_asc (jd_of env dt) req.lat req.lon "P") 360 -
          env.get_ayanamsa_ut (jd_of env dt)) 360 ∧
      0 ≤ resp.ascendant.lon ∧ resp.ascendant.lon < 360 := by
  obtain ⟨-, dt, hdt, rfl⟩ := (compute_natal_ok_iff env req resp).mp h
  exact ⟨dt, hdt, rfl, pymod_nonneg _ (by norm_num), pymod_lt _ (by norm_num)⟩

theorem C4_witness :
    ∃ dt, to_utc testEnv testReq.date testReq.time testReq.tzid = .ok dt ∧
      (natal_of testEnv testReq testDt).ascendant.lon =
        pymod (pymod (testEnv.houses_asc (jd_of testEnv dt) testReq.lat testReq.lon "P") 360 -
          testEnv.get_ayanamsa_ut (jd_of testEnv dt)) 360 ∧
      0 ≤ (natal_of testEnv testReq testDt).ascendant.lon ∧
      (natal_of testEnv testReq testDt).ascendant.lon < 360 :=
  C4_ascendant_longitude Unit testEnv testReq (natal_of testEnv testReq testDt)
    compute_natal_testEnv

/-- C5: For every natal-chart request whose ayanamsha field is not a
case-insensitive match of "lahiri", the handler fails with HTTP 400, and
it does so uniformly in the environment — no ephemeris, timezone or
parsing oracle is consulted, so the request has no side effects. -/
theorem C5_ayanamsha_gate (TZ : Type) (env : Env TZ) (req : NatalReq)
    (h : pyLower req.ayanamsha ≠ "lahiri") :
    compute_natal env req = .error (400, "Only lahiri supported") := by
  unfold compute_natal
  rw [compute_natal_inner_eq]
  simp [h]

theorem C5_witness :
    compute_natal testEnv { testReq with ayanamsha := "RAMAN" } =
      .error (400, "Only lahiri supported") :=
  C5_ayanamsha_gate Unit testEnv { testReq with ayanamsha := "RAMAN" } (by decide)

/-- A variant of `testEnv` whose tz database resolves no tzid. -/
def noTzEnv : Env Unit := { testEnv with gettz := fun _ => none }

/-- A request with an unresolvable tzid and a non-lahiri ayanamsha. -/
def badTzBadAyanReq : NatalReq := ⟨"2000-01-01", "12:00:00", "Not/AZone", 28, 77, "kp"⟩

/-- A request with an unresolvable tzid and the default ayanamsha. -/
def badTzReq : NatalReq := ⟨"2000-01-01", "12:00:00", "Not/AZone", 28, 77, "lahiri"⟩

/-- C6 counterexample: a request whose tzid does not resolve but whose
ayanamsha is not "lahiri" fails with HTTP 400, not with the generic
HTTP 500 — the claim's universal "every request whose tzid does not
resolve surfaces as HTTP 500" is falsified at this input. -/
theorem C6_counterexample :
    noTzEnv.gettz badTzBadAyanReq.tzid = none ∧
    compute_natal noTzEnv badTzBadAyanReq = .error (400, "Only lahiri supported") ∧
    compute_natal noTzEnv badTzBadAyanReq ≠ .error (500, "Internal error computing chart") :=
  ⟨rfl, by decide, by decide⟩

/-- C6 amended: for every natal-chart request that passes the ayanamsha
gate, if the tzid does not resolve to a known timezone then the handler
fails and surfaces to the client as the generic HTTP 500 internal error
(the same payload as every other internal failure), not a tzid-specific
4xx status. -/
theorem C6_tz_unresolved_is_500 (TZ : Type) (env : Env TZ) (req : NatalReq)
    (ha : pyLower req.ayanamsha = "lahiri") (htz : env.gettz req.tzid = none) :
    compute_natal env req = .error (500, "Internal error computing chart") := by
  unfold compute_natal
  rw [compute_natal_inner_eq]
  simp only [ha, ne_eq, not_true_eq_false, if_false]
  unfold to_utc
  cases env.fromisoformat (req.date ++ "T" ++ req.time) with
  | none => rfl
  | some dtl => rw [htz]

theorem C6_witness :
    compute_natal noTzEnv badTzReq = .error (500, "Internal error computing chart") :=
  C6_tz_unresolved_is_500 Unit noTzEnv badTzReq (by decide) rfl

/-- C7: The geocode handler fails with HTTP 404 exactly when the
provider returns no match; on every successful response the tzid field
is the fixed sentinel "UNKNOWN" and lat/lon are the provider's
coordinates (with the provider's canonical display string). -/
theorem C7_geocode (geo : String → Option GeoLocation) (req : GeocodeReq) :
    (geocode_place geo req = .error (404, "Place not found") ↔ geo req.place = none) ∧
    (∀ loc : GeoLocation, geo req.place = some loc →
      geocode_place geo req =
        .ok { lat := loc.latitude, lon := loc.longitude
            , tzid := "UNKNOWN", normalized_place := loc.display }) := by
  constructor
  · cases h : geo req.place with
    | none => simp [geocode_place, h]
    | some loc => simp [geocode_place, h]
  · intro loc h
    simp [geocode_place, h]

/-- A concrete geopy location. -/
def testLoc : GeoLocation := ⟨28, 77, "Delhi, India"⟩

/-- A concrete geocoding oracle resolving only "Delhi". -/
def testGeo : String → Option GeoLocation :=
  fun s => if s = "Delhi" then some testLoc else none

theorem C7_witness :
    geocode_place testGeo ⟨"Delhi"⟩ =
      .ok { lat := testLoc.latitude, lon := testLoc.longitude
          , tzid := "UNKNOWN", normalized_place := testLoc.display } :=
  (C7_geocode testGeo ⟨"Delhi"⟩).2 testLoc (by rfl)

/-- C8: The natal-chart handler is deterministic: against the same
oracle environment, two requests with identical date, time, tzid, lat,
lon and ayanamsha fields produce the same result — in particular
identical `birth_utc` strings and identical longitudes for every planet
and the ascendant; no hidden mutable state influences the result. -/
theorem C8_deterministic (TZ : Type) (env : Env TZ) (r₁ r₂ : NatalReq)
    (hdate : r₁.date = r₂.date) (htime : r₁.time = r₂.time) (htz : r₁.tzid = r₂.tzid)
    (hlat : r₁.lat = r₂.lat) (hlon : r₁.lon = r₂.lon)
    (hay : r₁.ayanamsha = r₂.ayanamsha) :
    compute_natal env r₁ = compute_natal env r₂ ∧
    ∀ a b : NatalResp, compute_natal env r₁ = .ok a → compute_natal env r₂ = .ok b →
      a.birth_utc = b.birth_utc ∧ a.ascendant.lon = b.ascendant.lon ∧
      a.planets.map PlanetOut.lon = b.planets.map PlanetOut.lon := by
  have hr : r₁ = r₂ := by
    cases r₁; cases r₂
    simp_all
  subst hr
  refine ⟨rfl, fun a b h1 h2 => ?_⟩
  rw [h1] at h2
  cases h2
  exact ⟨rfl, rfl, rfl⟩

theorem C8_witness :
    compute_natal testEnv testReq = compute_natal testEnv testReq2 ∧
    ∀ a b : NatalResp, compute_natal testEnv testReq = .ok a →
      compute_natal testEnv testReq2 = .ok b →
      a.birth_utc = b.birth_utc ∧ a.ascendant.lon = b.ascendant.lon ∧
      a.planets.map PlanetOut.lon = b.planets.map PlanetOut.lon :=
  C8_deterministic Unit testEnv testReq testReq2 rfl rfl rfl rfl rfl rfl

/-- C9: The sign/degree mapping is total over every rational longitude,
negative or at/above 360 included: the input is first reduced modulo
360, the sign index always lies in `0..11` (so the indexing into the
twelve-name list is in bounds and no `IndexError` is possible), and the
returned degree lies in `[0, 30)`. -/
theorem C9_total_mapping (x : ℚ) :
    lon_to_sign_deg x = some (signName x, degInSign x) ∧
    lon_to_sign_deg x = lon_to_sign_deg (pymod x 360) ∧
    0 ≤ signIdx x ∧ signIdx x < 12 ∧ (signIdx x).toNat < SIGNS.length ∧
    0 ≤ degInSign x ∧ degInSign x < 30 := by
  refine ⟨lon_to_sign_deg_eq x, ?_, signIdx_nonneg x, signIdx_lt_twelve x, ?_,
    degInSign_nonneg x, degInSign_lt_thirty x⟩
  · rw [lon_to_sign_deg_eq, lon_to_sign_deg_eq]
    have h : pymod (pymod x 360) 360 = pymod x 360 := pymod_idem x (by norm_num)
    unfold signName degInSign signIdx
    rw [h]
  · have h1 := signIdx_lt_twelve x
    have h0 := signIdx_nonneg x
    have hlen : SIGNS.length = 12 := rfl
    omega

section Shift180

theorem signIdx_of_range {y : ℚ} (h0 : 0 ≤ y) (h1 : y < 360) :
    signIdx y = ⌊y / 30⌋ := by
  unfold signIdx
  rw [pymod_eq_self h0 h1]

theorem degInSign_of_range {y : ℚ} (h0 : 0 ≤ y) (h1 : y < 360) :
    degInSign y = y - ⌊y / 30⌋ * 30 := by
  unfold degInSign
  rw [pymod_eq_self h0 h1, signIdx_of_range h0 h1]

/-- Adding 180° modulo 360 keeps the degree-within-sign and moves the
sign index by six signs modulo twelve. -/
theorem shift180 {l : ℚ} (h0 : 0 ≤ l) (h1 : l < 360) :
    degInSign (pymod (l + 180) 360) = degInSign l ∧
    signIdx (pymod (l + 180) 360) = (signIdx l + 6) % 12 := by
  rcases lt_or_le l 180 with hc | hc
  · have hk : pymod (l + 180) 360 = l + 180 :=
      pymod_eq_self (by linarith) (by linarith)
    have hq : (l + 180) / 30 = l / 30 + ((6:ℤ):ℚ) := by push_cast; ring
    have hfk : ⌊(l + 180) / 30⌋ = ⌊l / 30⌋ + 6 := by rw [hq, Int.floor_add_int]
    have hi0 : 0 ≤ ⌊l / 30⌋ := Int.floor_nonneg.mpr (div_nonneg h0 (by norm_num))
    have hi1 : ⌊l / 30⌋ < 6 := by
      apply Int.floor_lt.mpr
      push_cast
      rw [div_lt_iff₀ (by norm_num : (0:ℚ) < 30)]
      linarith
    constructor
    · rw [hk, degInSign_of_range (by linarith) (by linarith),
        degInSign_of_range h0 h1, hfk]
      push_cast
      ring
    · rw [hk, signIdx_of_range (by linarith) (by linarith),
        signIdx_of_range h0 h1, hfk]
      omega
  · have hfloor : ⌊(l + 180) / 360⌋ = 1 := by
      rw [Int.floor_eq_iff]
      constructor
      · push_cast
        rw [le_div_iff₀ (by norm_num : (0:ℚ) < 360)]
        linarith
      · push_cast
        rw [div_lt_iff₀ (by norm_num : (0:ℚ) < 360)]
        linarith
    have hk : pymod (l + 180) 360 = l - 180 := by
      unfold pymod
      rw [hfloor]
      push_cast
      ring
    have hq : (l - 180) / 30 = l / 30 - ((6:ℤ):ℚ) := by push_cast; ring
    have hfk : ⌊(l - 180) / 30⌋ = ⌊l / 30⌋ - 6 := by rw [hq, Int.floor_sub_int]
    have hi0 : 6 ≤ ⌊l / 30⌋ := by
      apply Int.le_floor.mpr
      push_cast
      rw [le_div_iff₀ (by norm_num : (0:ℚ) < 30)]
      linarith
    have hi1 : ⌊l / 30⌋ < 12 := by
      apply Int.floor_lt.mpr
      push_cast
      rw [div_lt_iff₀ (by norm_num : (0:ℚ) < 30)]
      linarith
    constructor
    · rw [hk, degInSign_of_range (by linarith) (by linarith),
        degInSign_of_range h0 h1, hfk]
      push_cast
      ring
    · rw [hk, signIdx_of_range (by linarith) (by linarith),
        signIdx_of_range h0 h1, hfk]
      omega

/-- The position of a computed sign name in `SIGNS` is the sign index. -/
theorem indexOf_signName (y : ℚ) : (SIGNS.indexOf (signName y) : ℤ) = signIdx y := by
  have h0 := signIdx_nonneg y
  have h1 := signIdx_lt_twelve y
  unfold signName
  have hb : ∀ n : ℕ, n < 12 → (SIGNS.indexOf (SIGNS.getD n "") : ℤ) = n := by decide
  rw [hb (signIdx y).toNat (by omega)]
  omega

end Shift180

/-- C10: In every successful natal-chart response, Ketu's
degree-within-sign is exactly Rahu's degree-within-sign, and the
position of Ketu's sign in the twelve-sign list is `(position of Rahu's
sign + 6) mod 12` — adding 180 degrees modulo 360 shifts the longitude
by exactly six whole signs. -/
theorem C10_ketu_six_signs_from_rahu (TZ : Type) (env : Env TZ) (req : NatalReq)
    (resp : NatalResp) (h : compute_natal env req = .ok resp) :
    ∃ rahu ketu : PlanetOut,
      resp.planets.find? (fun p => p.name == "Rahu") = some rahu ∧
      resp.planets.find? (fun p => p.name == "Ketu") = some ketu ∧
      ketu.degree = rahu.degree ∧
      (SIGNS.indexOf ketu.sign : ℤ) = (SIGNS.indexOf rahu.sign + 6) % 12 := by
  obtain ⟨-, dt, -, rfl⟩ := (compute_natal_ok_iff env req resp).mp h
  have hr0 : (0:ℚ) ≤ pymod (env.calc_ut_lon (jd_of env dt) TRUE_NODE natal_flags) 360 :=
    pymod_nonneg _ (by norm_num)
  have hr1 : pymod (env.calc_ut_lon (jd_of env dt) TRUE_NODE natal_flags) 360 < 360 :=
    pymod_lt _ (by norm_num)
  refine ⟨planetEntry env (jd_of env dt) "Rahu" TRUE_NODE,
    ketuEntry env (jd_of env dt), ?_, ?_, ?_, ?_⟩
  · rw [natal_planets_list]; rfl
  · rw [natal_planets_list]; rfl
  · exact (shift180 hr0 hr1).1
  · simp only [planetEntry, ketuEntry]
    rw [indexOf_signName, indexOf_signName, (shift180 hr0 hr1).2]

theorem C10_witness :
    ∃ rahu ketu : PlanetOut,
      (natal_of testEnv testReq testDt).planets.find? (fun p => p.name == "Rahu") = some rahu ∧
      (natal_of testEnv testReq testDt).planets.find? (fun p => p.name == "Ketu") = some ketu ∧
      ketu.degree = rahu.degree ∧
      (SIGNS.indexOf ketu.sign : ℤ) = (SIGNS.indexOf rahu.sign + 6) % 12 :=
  C10_ketu_six_signs_from_rahu Unit testEnv testReq (natal_of testEnv testReq testDt)
    compute_natal_testEnv

end VedicChart
